import Mathlib

/-!
Verification of the IG comment-to-DM automation backend (`main.py`,
`schemas.py`).  The webhook handlers `on_comment`, `on_dm` and
`verify_webhook` are embedded shallowly: the document store becomes a
record of in-order lists, each handler becomes a pure function from a
store and an event to a result together with the updated store.  The
Python string builtins used by the handlers (`lower`, `strip`, `in`,
`int`) are modelled on the character list of a string so that every
definition evaluates by kernel reduction.
-/

namespace IG

/-- Python's `str.lower()` on ASCII input: map the A-Z range to a-z. -/
def lowerChar (c : Char) : Char :=
  if 65 ≤ c.toNat && c.toNat ≤ 90 then Char.ofNat (c.toNat + 32) else c

/-- Lowercase every character of a string (model of `str.lower()`). -/
def lowerStr (s : String) : String :=
  String.mk (s.data.map lowerChar)

/-- Python's `str.strip()`: drop whitespace from both ends. -/
def stripStr (s : String) : String :=
  String.mk
    (((s.data.dropWhile Char.isWhitespace).reverse.dropWhile Char.isWhitespace).reverse)

/-- Whether `needle` is a prefix of `hay`. -/
def prefixOfChars : List Char → List Char → Bool
  | [], _ => true
  | _ :: _, [] => false
  | a :: as, b :: bs => a == b && prefixOfChars as bs

/-- Whether `needle` occurs contiguously inside `hay`. -/
def infixOfChars (needle : List Char) : List Char → Bool
  | [] => needle.isEmpty
  | c :: tl => prefixOfChars needle (c :: tl) || infixOfChars needle tl

/-- Substring test: `strContains hay needle` mirrors Python's
`needle in hay` on strings. -/
def strContains (hay needle : String) : Bool :=
  infixOfChars needle.data hay.data

/-- `IGUser` document (schemas.py): per-account external user profile.
The free-form `attributes` bag and the timestamp field are never read or
written by the handlers and are omitted from the shallow embedding. -/
structure IGUser where
  accountId : String
  igUserId : String
  username : Option String := none
  followerStatus : Option String := none
  tags : List String := []
deriving Repr, DecidableEq

/-- `Flow` document (schemas.py).  `id` models the store-generated `_id`.
The graph fields (`nodes`, `edges`, `variables`) are never interpreted by
the handlers and are omitted from the shallow embedding. -/
structure Flow where
  id : String
  accountId : String
  name : String := ""
  keywords : List String := []
  status : String := "active"
  version : Nat := 1
deriving Repr, DecidableEq

/-- `Assignment` document (schemas.py): media-to-flow binding. -/
structure Assignment where
  accountId : String
  igMediaId : String
  flowId : String
deriving Repr, DecidableEq

/-- A single logged message, as inserted by the handlers
(`{"role": ..., "text": ...}`). -/
structure Message where
  role : String
  text : String
deriving Repr, DecidableEq

/-- A `conversation` document exactly as the handlers insert it: the raw
dict with `accountId`, `igUserId` and a message list (main.py lines
131-139 and 159-165). -/
structure Conversation where
  accountId : String
  igUserId : String
  messages : List Message
deriving Repr, DecidableEq

/-- The body of `/webhook/comment` (`CommentEvent` in main.py). -/
structure CommentEvent where
  accountId : String
  igMediaId : String
  igUserId : String
  username : Option String := none
  text : String
deriving Repr, DecidableEq

/-- The body of `/webhook/dm` (`DMEvent` in main.py). -/
structure DMEvent where
  accountId : String
  igUserId : String
  text : String
deriving Repr, DecidableEq

/-- The analytics `Event.payload`: a mirror of the triggering input
(`ev.model_dump()`). -/
inductive Payload where
  | comment (ev : CommentEvent)
  | dm (ev : DMEvent)
deriving Repr, DecidableEq

/-- `Event` document (schemas.py): immutable analytics record. -/
structure Event where
  type : String
  accountId : String
  payload : Payload
deriving Repr, DecidableEq

/-- Modelled from the spec: the document store (`database.py` is imported
by main.py but absent from the sources).  Per the spec's collaborator
interface it exposes `insert(collection, doc) -> id` and
`find(collection, filter) -> list`; each collection is modelled as a list
in insertion order, `insert` appends, `find` filters by field equality
and "first match" is the head of the filtered list. -/
structure Store where
  assignments : List Assignment
  flows : List Flow
  igusers : List IGUser
  conversations : List Conversation
  events : List Event
deriving Repr, DecidableEq

/-- The empty store. -/
def Store.empty : Store :=
  { assignments := [], flows := [], igusers := [], conversations := [], events := [] }

/-- Outcome of `/webhook/comment`: either the not-processed object
`{processed: false, reason: ...}` or the processed object
`{processed: true, action: ..., next: ...}`. -/
inductive CommentResult where
  | notProcessed (reason : String)
  | processed (action : String) (nxt : String)
deriving Repr, DecidableEq

/-- Outcome of `/webhook/dm`: `{delivered: true}`, `{opted_out: true}`,
or `{ack: true, hint: ...}`. -/
inductive DMResult where
  | delivered
  | optedOut
  | ack (hint : String)
deriving Repr, DecidableEq

/-- `get_documents("assignment", {"igMediaId": ev.igMediaId, "accountId":
ev.accountId})` followed by `assigns[0]` (main.py lines 102-106). -/
def findAssignment (s : Store) (ev : CommentEvent) : Option Assignment :=
  (s.assignments.filter
    (fun a => a.igMediaId == ev.igMediaId && a.accountId == ev.accountId)).head?

/-- Flow lookup of main.py lines 109-116: query by `_id` when
`assignment.flowId` is truthy (non-empty), fall back to the account's
flows when that yields nothing, and take the first document. -/
def lookupFlow (s : Store) (a : Assignment) (accountId : String) : Option Flow :=
  let byId := if a.flowId == "" then [] else s.flows.filter (fun f => f.id == a.flowId)
  let docs := if byId.isEmpty then s.flows.filter (fun f => f.accountId == accountId) else byId
  docs.head?

/-- The keyword gate of main.py lines 117-118: lowercase the keywords;
pass when the list is empty or some keyword occurs in the lowercased
text. -/
def keywordGate (keywords : List String) (text : String) : Bool :=
  let kws := keywords.map lowerStr
  kws.isEmpty || kws.any (fun k => strContains (lowerStr text) k)

/-- The fixed agent prompt written by `on_comment` (main.py line 136). -/
def followPrompt : String :=
  "Hey! Thanks for commenting. If you enjoy this, consider following us for more. Reply with 'I followed' to continue."

/-- The conversation document inserted by `on_comment` (main.py lines
131-138). -/
def commentConvo (ev : CommentEvent) : Conversation :=
  { accountId := ev.accountId, igUserId := ev.igUserId,
    messages :=
      [ { role := "user", text := "Commented: " ++ ev.text },
        { role := "agent", text := followPrompt } ] }

/-- `on_comment` (main.py lines 100-144): assignment lookup, flow lookup
with fallback, keyword gate, contact upsert, conversation insert, event
insert. -/
def on_comment (s : Store) (ev : CommentEvent) : CommentResult × Store :=
  match findAssignment s ev with
  | none => (CommentResult.notProcessed "No flow assigned", s)
  | some assignment =>
    match lookupFlow s assignment ev.accountId with
    | none => (CommentResult.notProcessed "Flow not found", s)
    | some flow =>
      if keywordGate flow.keywords ev.text then
        let users := s.igusers.filter
          (fun u => u.igUserId == ev.igUserId && u.accountId == ev.accountId)
        let s1 : Store :=
          if users.isEmpty then
            { s with igusers := s.igusers ++
                [{ accountId := ev.accountId, igUserId := ev.igUserId,
                   username := ev.username }] }
          else s
        let s2 : Store := { s1 with conversations := s1.conversations ++ [commentConvo ev] }
        let s3 : Store := { s2 with events := s2.events ++
            [{ type := "comment_trigger", accountId := ev.accountId,
               payload := Payload.comment ev }] }
        (CommentResult.processed "asked_follow" "wait_for_dm_reply", s3)
      else
        (CommentResult.notProcessed "Keyword not matched", s)

/-- The fixed delivery text of the DM deliver branch (main.py line 156). -/
def deliverMsg : String :=
  "Awesome! Here is your promised item: https://example.com/asset?token=demo"

/-- The static hint of the DM other branch (main.py line 172). -/
def dmHint : String :=
  "Reply 'I followed' to proceed or 'STOP' to opt out."

/-- The conversation document inserted by the DM deliver branch
(main.py lines 159-165). -/
def deliverConvo (ev : DMEvent) : Conversation :=
  { accountId := ev.accountId, igUserId := ev.igUserId,
    messages := [{ role := "agent", text := deliverMsg }] }

/-- `on_dm` (main.py lines 151-172): trim and lowercase the text, then
branch into deliver / opt-out / other, inserting the corresponding
documents. -/
def on_dm (s : Store) (ev : DMEvent) : DMResult × Store :=
  let t := lowerStr (stripStr ev.text)
  if t == "i followed" || t == "followed" || t == "yes" then
    let s1 : Store := { s with events := s.events ++
        [{ type := "deliver_asset", accountId := ev.accountId, payload := Payload.dm ev }] }
    let s2 : Store := { s1 with conversations := s1.conversations ++ [deliverConvo ev] }
    (DMResult.delivered, s2)
  else if t == "stop" || t == "unsubscribe" then
    let s1 : Store := { s with events := s.events ++
        [{ type := "opt_out", accountId := ev.accountId, payload := Payload.dm ev }] }
    (DMResult.optedOut, s1)
  else
    let s1 : Store := { s with events := s.events ++
        [{ type := "dm_other", accountId := ev.accountId, payload := Payload.dm ev }] }
    (DMResult.ack dmHint, s1)

/-- Python truthiness of an optional query-parameter string: `None` and
the empty string are falsy. -/
def pyTruthy : Option String → Bool
  | none => false
  | some s => !s.isEmpty

/-- Value of an ASCII decimal digit list. -/
def digitsToNat (cs : List Char) : Nat :=
  cs.foldl (fun acc c => 10 * acc + (c.toNat - 48)) 0

/-- A non-empty all-digit character list, or failure. -/
def parseDigits (cs : List Char) : Option Nat :=
  if !cs.isEmpty && cs.all (fun c => c.isDigit) then some (digitsToNat cs) else none

/-- Python's builtin `int(str)` on ASCII input: strip surrounding
whitespace, allow one leading sign, then require at least one decimal
digit; `none` models the `ValueError` raise. -/
def pyIntOfString (s : String) : Option Int :=
  match (stripStr s).data with
  | '-' :: cs => (parseDigits cs).map (fun n => -(n : Int))
  | '+' :: cs => (parseDigits cs).map (fun n => (n : Int))
  | cs => (parseDigits cs).map (fun n => (n : Int))

/-- `int(hub_challenge or 0)` (main.py line 89): a falsy challenge
(absent or empty) is replaced by the int `0`; otherwise the string is
parsed and may raise. -/
def pyIntOr0 (challenge : Option String) : Option Int :=
  if pyTruthy challenge then pyIntOfString (challenge.getD "") else some 0

/-- Outcome of `GET /webhook`: an integer echo, the 403 raise, or an
unhandled `ValueError` from `int()` (a 5xx-class failure). -/
inductive VerifyOutcome where
  | ok (n : Int)
  | forbidden
  | valueError
deriving Repr, DecidableEq

/-- `verify_webhook` (main.py lines 87-90). -/
def verify_webhook (hub_mode hub_token hub_challenge : Option String) : VerifyOutcome :=
  if hub_mode == some "subscribe" && pyTruthy hub_token then
    match pyIntOr0 hub_challenge with
    | some n => VerifyOutcome.ok n
    | none => VerifyOutcome.valueError
  else VerifyOutcome.forbidden

example : strContains "i love this!" "love" = true := by decide
example : keywordGate ["love", "discount"] "I love this!" = true := by decide
example : keywordGate ["love", "discount"] "meh" = false := by decide
example : keywordGate [] "anything" = true := by decide
example : pyIntOfString "12345" = some 12345 := by decide
example : pyIntOfString "abc" = none := by decide
example : pyIntOfString " -42 " = some (-42) := by decide
example : verify_webhook (some "subscribe") (some "t") (some "12345") = VerifyOutcome.ok 12345 := by decide
example : verify_webhook (some "subscribe") (some "t") none = VerifyOutcome.ok 0 := by decide
example : verify_webhook (some "subscribe") (some "t") (some "abc") = VerifyOutcome.valueError := by decide
example : verify_webhook none (some "t") (some "1") = VerifyOutcome.forbidden := by decide
example : lowerStr (stripStr "STOP") = "stop" := by decide

/-! ## Fixtures used by the witnesses -/

/-- A flow with two trigger keywords. -/
def wFlow : Flow :=
  { id := "f1", accountId := "acc", name := "welcome", keywords := ["love", "discount"] }

/-- The assignment binding media `m1` to `wFlow`. -/
def wAssignment : Assignment :=
  { accountId := "acc", igMediaId := "m1", flowId := "f1" }

/-- A store holding just the fixture assignment and flow. -/
def wStore : Store :=
  { Store.empty with assignments := [wAssignment], flows := [wFlow] }

/-- A store holding the fixture assignment but no flow at all. -/
def wStoreNoFlow : Store :=
  { Store.empty with assignments := [wAssignment] }

/-- A comment event whose text matches the `love` keyword. -/
def wComment : CommentEvent :=
  { accountId := "acc", igMediaId := "m1", igUserId := "u1",
    username := some "alice", text := "I love this!" }

/-- A DM event on the deliver branch (after trim and lowercase). -/
def wDMDeliver : DMEvent :=
  { accountId := "acc", igUserId := "u1", text := " YES " }

/-- A DM event on the opt-out branch. -/
def wDMStop : DMEvent :=
  { accountId := "acc", igUserId := "u1", text := "STOP" }

/-- A second DM event with the same text but different account and user. -/
def wDMDeliver2 : DMEvent :=
  { accountId := "other", igUserId := "u9", text := " YES " }

/-! ## Helper lemmas -/

/-- A normalized text in the opt-out set is never in the deliver set. -/
lemma stop_not_deliver (t : String)
    (h : (t == "stop" || t == "unsubscribe") = true) :
    (t == "i followed" || t == "followed" || t == "yes") = false := by
  simp only [Bool.or_eq_true, beq_iff_eq] at h
  rcases h with h | h <;> subst h <;> decide

/-- On a non-empty keyword list, the gate is exactly the existence of a
lowercased keyword occurring in the lowercased text. -/
lemma keywordGate_eq_any (keywords : List String) (t : String) (h : keywords ≠ []) :
    keywordGate keywords t =
      keywords.any (fun k => strContains (lowerStr t) (lowerStr k)) := by
  unfold keywordGate
  cases keywords with
  | nil => exact absurd rfl h
  | cons k ks => simp [List.any_map, Function.comp_def]

/-- A list is a prefix of itself. -/
lemma prefixOfChars_refl (l : List Char) : prefixOfChars l l = true := by
  induction l with
  | nil => rfl
  | cons c tl ih => simp [prefixOfChars, ih]

/-- A suffix occurs contiguously in the whole list. -/
lemma infixOfChars_suffix (needle pre : List Char) :
    infixOfChars needle (pre ++ needle) = true := by
  induction pre with
  | nil =>
    cases needle with
    | nil => rfl
    | cons c tl => simp [infixOfChars, prefixOfChars_refl]
  | cons c tl ih => simp [infixOfChars, ih]

/-- Appending in front preserves substring containment of the suffix. -/
lemma strContains_append (p t : String) : strContains (p ++ t) t = true :=
  infixOfChars_suffix t.data p.data

/-! ## Claims about the DM handler -/

/-- C2: for every DM event, with `t` the trimmed lowercased text: `t` in
`{"i followed","followed","yes"}` gives the deliver branch (a
`deliver_asset` event, a one-agent-message conversation with the fixed
delivery text, result `delivered`); `t` in `{"stop","unsubscribe"}`
gives the opt-out branch (an `opt_out` event, result `opted_out`);
anything else gives the other branch (a `dm_other` event, result `ack`
with the static hint). -/
theorem dm_branches (s : Store) (ev : DMEvent) :
    ((lowerStr (stripStr ev.text) == "i followed" ||
        lowerStr (stripStr ev.text) == "followed" ||
        lowerStr (stripStr ev.text) == "yes") = true →
      on_dm s ev = (DMResult.delivered,
        { s with
          events := s.events ++
            [{ type := "deliver_asset", accountId := ev.accountId,
               payload := Payload.dm ev }],
          conversations := s.conversations ++ [deliverConvo ev] })) ∧
    ((lowerStr (stripStr ev.text) == "stop" ||
        lowerStr (stripStr ev.text) == "unsubscribe") = true →
      on_dm s ev = (DMResult.optedOut,
        { s with
          events := s.events ++
            [{ type := "opt_out", accountId := ev.accountId,
               payload := Payload.dm ev }] })) ∧
    ((lowerStr (stripStr ev.text) == "i followed" ||
        lowerStr (stripStr ev.text) == "followed" ||
        lowerStr (stripStr ev.text) == "yes") = false →
      (lowerStr (stripStr ev.text) == "stop" ||
        lowerStr (stripStr ev.text) == "unsubscribe") = false →
      on_dm s ev = (DMResult.ack dmHint,
        { s with
          events := s.events ++
            [{ type := "dm_other", accountId := ev.accountId,
               payload := Payload.dm ev }] })) := by
  refine ⟨fun h1 => ?_, fun h2 => ?_, fun h1 h2 => ?_⟩
  · simp only [on_dm, h1]
    simp
  · have h1 := stop_not_deliver _ h2
    simp only [on_dm, h1, h2]
    simp
  · simp only [on_dm, h1, h2]
    simp

/-- Witness for C2 at the deliver-branch fixture. -/
theorem dm_branches_w :
    on_dm Store.empty wDMDeliver = (DMResult.delivered,
      { Store.empty with
        events := Store.empty.events ++
          [{ type := "deliver_asset", accountId := wDMDeliver.accountId,
             payload := Payload.dm wDMDeliver }],
        conversations := Store.empty.conversations ++ [deliverConvo wDMDeliver] }) :=
  (dm_branches Store.empty wDMDeliver).1 (by decide)

/-- C8: a DM whose trimmed lowercased text is `stop` or `unsubscribe`
returns `opted_out` and writes exactly one document, an `opt_out`
event; the conversation, contact, assignment and flow collections are
untouched. -/
theorem dm_stop_single_event (s : Store) (ev : DMEvent)
    (h : (lowerStr (stripStr ev.text) == "stop" ||
          lowerStr (stripStr ev.text) == "unsubscribe") = true) :
    (on_dm s ev).1 = DMResult.optedOut ∧
    (on_dm s ev).2.events = s.events ++
      [{ type := "opt_out", accountId := ev.accountId, payload := Payload.dm ev }] ∧
    (on_dm s ev).2.conversations = s.conversations ∧
    (on_dm s ev).2.igusers = s.igusers ∧
    (on_dm s ev).2.assignments = s.assignments ∧
    (on_dm s ev).2.flows = s.flows := by
  have h1 := stop_not_deliver _ h
  refine ⟨?_, ?_, ?_, ?_, ?_, ?_⟩ <;> (simp only [on_dm, h1, h]; simp)

/-- Witness for C8 at the DM text `"STOP"`. -/
theorem dm_stop_single_event_w :
    (on_dm Store.empty wDMStop).1 = DMResult.optedOut ∧
    (on_dm Store.empty wDMStop).2.events = Store.empty.events ++
      [{ type := "opt_out", accountId := wDMStop.accountId,
         payload := Payload.dm wDMStop }] ∧
    (on_dm Store.empty wDMStop).2.conversations = Store.empty.conversations ∧
    (on_dm Store.empty wDMStop).2.igusers = Store.empty.igusers ∧
    (on_dm Store.empty wDMStop).2.assignments = Store.empty.assignments ∧
    (on_dm Store.empty wDMStop).2.flows = Store.empty.flows :=
  dm_stop_single_event Store.empty wDMStop (by decide)

/-- C9: the DM classification is a pure function of the event text: any
two DM events with the same raw text produce the same result object,
regardless of account, user, or prior store contents. -/
theorem dm_classification_deterministic (s1 s2 : Store) (ev1 ev2 : DMEvent)
    (h : ev1.text = ev2.text) :
    (on_dm s1 ev1).1 = (on_dm s2 ev2).1 := by
  unfold on_dm
  rw [h]
  cases hd : (lowerStr (stripStr ev2.text) == "i followed" ||
      lowerStr (stripStr ev2.text) == "followed" ||
      lowerStr (stripStr ev2.text) == "yes") <;>
    cases ho : (lowerStr (stripStr ev2.text) == "stop" ||
        lowerStr (stripStr ev2.text) == "unsubscribe") <;>
      simp only [hd, ho] <;> simp

/-- Witness for C9: two deliver DMs differing in account, user and prior
store classify identically. -/
theorem dm_classification_deterministic_w :
    (on_dm Store.empty wDMDeliver).1 = (on_dm wStore wDMDeliver2).1 :=
  dm_classification_deterministic Store.empty wStore wDMDeliver wDMDeliver2 (by decide)

/-! ## Claims about the comment handler -/

/-- C5: a comment event with no matching assignment returns
`{processed: false, reason: "No flow assigned"}` and leaves the store
untouched: no contact, conversation or event document is written. -/
theorem comment_no_assignment_no_writes (s : Store) (ev : CommentEvent)
    (h : findAssignment s ev = none) :
    on_comment s ev = (CommentResult.notProcessed "No flow assigned", s) := by
  simp [on_comment, h]

/-- Witness for C5 on the empty store. -/
theorem comment_no_assignment_no_writes_w :
    on_comment Store.empty wComment =
      (CommentResult.notProcessed "No flow assigned", Store.empty) :=
  comment_no_assignment_no_writes Store.empty wComment (by decide)

/-- C10: a comment event that fails at the flow lookup or at the keyword
gate (result `Flow not found` or `Keyword not matched`) performs no
store writes at all. -/
theorem comment_not_processed_no_writes (s : Store) (ev : CommentEvent)
    (h : (on_comment s ev).1 = CommentResult.notProcessed "Flow not found" ∨
         (on_comment s ev).1 = CommentResult.notProcessed "Keyword not matched") :
    (on_comment s ev).2 = s := by
  unfold on_comment at h ⊢
  cases ha : findAssignment s ev with
  | none => simp [ha]
  | some a =>
    cases hf : lookupFlow s a ev.accountId with
    | none => simp [ha, hf]
    | some flow =>
      cases hg : keywordGate flow.keywords ev.text with
      | false => simp [ha, hf, hg]
      | true => simp [ha, hf, hg] at h

/-- Witness for C10 on a store whose assignment points at no flow. -/
theorem comment_not_processed_no_writes_w :
    (on_comment wStoreNoFlow wComment).2 = wStoreNoFlow :=
  comment_not_processed_no_writes wStoreNoFlow wComment (Or.inl (by decide))

/-- C1: once a flow has been matched, the keyword gate behaves as
specified: with a non-empty keyword list the handler fires (returns the
processed result) iff some lowercased keyword occurs in the lowercased
text, and a failed gate yields `Keyword not matched`; with an empty
keyword list the gate always passes. -/
theorem comment_keyword_gate (s : Store) (ev : CommentEvent) (a : Assignment) (flow : Flow)
    (ha : findAssignment s ev = some a)
    (hf : lookupFlow s a ev.accountId = some flow) :
    (flow.keywords ≠ [] →
      (((on_comment s ev).1 =
          CommentResult.processed "asked_follow" "wait_for_dm_reply") ↔
        flow.keywords.any
          (fun k => strContains (lowerStr ev.text) (lowerStr k)) = true) ∧
      (flow.keywords.any
          (fun k => strContains (lowerStr ev.text) (lowerStr k)) = false →
        (on_comment s ev).1 = CommentResult.notProcessed "Keyword not matched")) ∧
    (flow.keywords = [] →
      (on_comment s ev).1 =
        CommentResult.processed "asked_follow" "wait_for_dm_reply") := by
  constructor
  · intro hne
    have hg := keywordGate_eq_any flow.keywords ev.text hne
    constructor
    · cases hk : flow.keywords.any (fun k => strContains (lowerStr ev.text) (lowerStr k)) with
      | true =>
        have hgt : keywordGate flow.keywords ev.text = true := by rw [hg, hk]
        simp [on_comment, ha, hf, hgt]
      | false =>
        have hgf : keywordGate flow.keywords ev.text = false := by rw [hg, hk]
        simp [on_comment, ha, hf, hgf]
    · intro hk
      have hgf : keywordGate flow.keywords ev.text = false := by rw [hg, hk]
      simp [on_comment, ha, hf, hgf]
  · intro he
    have hgt : keywordGate flow.keywords ev.text = true := by simp [keywordGate, he]
    simp [on_comment, ha, hf, hgt]

/-- Witness for C1: the fixture comment matches the `love` keyword. -/
theorem comment_keyword_gate_w :
    (on_comment wStore wComment).1 =
      CommentResult.processed "asked_follow" "wait_for_dm_reply" :=
  ((comment_keyword_gate wStore wComment wAssignment wFlow
      (by decide) (by decide)).1 (by decide)).1.mpr (by decide)

/-- C6: with a matched assignment, the flow is looked up by the
assignment's (truthy) `flowId`; if that query yields nothing the handler
falls back to the first flow owned by the account; if that also yields
nothing the result is `Flow not found`. -/
theorem comment_flow_lookup (s : Store) (ev : CommentEvent) (a : Assignment)
    (ha : findAssignment s ev = some a) :
    (∀ fl rest, a.flowId ≠ "" →
      s.flows.filter (fun f => f.id == a.flowId) = fl :: rest →
      lookupFlow s a ev.accountId = some fl) ∧
    ((a.flowId = "" ∨ s.flows.filter (fun f => f.id == a.flowId) = []) →
      lookupFlow s a ev.accountId =
        (s.flows.filter (fun f => f.accountId == ev.accountId)).head?) ∧
    (lookupFlow s a ev.accountId = none →
      (on_comment s ev).1 = CommentResult.notProcessed "Flow not found") := by
  refine ⟨?_, ?_, ?_⟩
  · intro fl rest hne hfilter
    have hid : (a.flowId == "") = false := by simp [hne]
    simp [lookupFlow, hid, hfilter]
  · intro h
    rcases h with h | h
    · simp [lookupFlow, h]
    · cases hid : (a.flowId == "") <;> simp [lookupFlow, hid, h]
  · intro h
    simp [on_comment, ha, h]

/-- Witness for C6: the fixture assignment's id lookup finds `wFlow`. -/
theorem comment_flow_lookup_w :
    lookupFlow wStore wAssignment wComment.accountId = some wFlow :=
  (comment_flow_lookup wStore wComment wAssignment (by decide)).1
    wFlow [] (by decide) (by decide)

/-- C7: when the keyword gate passes, the contact keyed by
`(accountId, igUserId)` is upserted: created seeded with the event's
username when absent, and the contact collection is left unchanged when
one already exists. -/
theorem comment_contact_upsert (s : Store) (ev : CommentEvent) (a : Assignment) (flow : Flow)
    (ha : findAssignment s ev = some a)
    (hf : lookupFlow s a ev.accountId = some flow)
    (hg : keywordGate flow.keywords ev.text = true) :
    ((s.igusers.filter
        (fun u => u.igUserId == ev.igUserId && u.accountId == ev.accountId)) = [] →
      (on_comment s ev).2.igusers = s.igusers ++
        [{ accountId := ev.accountId, igUserId := ev.igUserId,
           username := ev.username }]) ∧
    ((s.igusers.filter
        (fun u => u.igUserId == ev.igUserId && u.accountId == ev.accountId)) ≠ [] →
      (on_comment s ev).2.igusers = s.igusers) := by
  constructor
  · intro hu
    simp [on_comment, ha, hf, hg, hu]
  · intro hu
    have hne : (s.igusers.filter
        (fun u => u.igUserId == ev.igUserId && u.accountId == ev.accountId)).isEmpty = false := by
      cases hfilter : s.igusers.filter
          (fun u => u.igUserId == ev.igUserId && u.accountId == ev.accountId) with
      | nil => exact absurd hfilter hu
      | cons x xs => simp
    simp [on_comment, ha, hf, hg, hne]

/-- Witness for C7: the fixture store has no contacts, so one is
created. -/
theorem comment_contact_upsert_w :
    (on_comment wStore wComment).2.igusers = wStore.igusers ++
      [{ accountId := wComment.accountId, igUserId := wComment.igUserId,
         username := wComment.username }] :=
  (comment_contact_upsert wStore wComment wAssignment wFlow
      (by decide) (by decide) (by decide)).1 (by decide)

/-- C4: when the keyword gate passes, a fresh conversation document is
appended holding exactly that call's two messages: a user-role message
echoing the raw comment text, followed by the fixed agent-role prompt
asking the contact to reply with `I followed`. -/
theorem comment_conversation_two_messages (s : Store) (ev : CommentEvent)
    (a : Assignment) (flow : Flow)
    (ha : findAssignment s ev = some a)
    (hf : lookupFlow s a ev.accountId = some flow)
    (hg : keywordGate flow.keywords ev.text = true) :
    (on_comment s ev).2.conversations = s.conversations ++ [commentConvo ev] ∧
    (commentConvo ev).messages.length = 2 ∧
    (commentConvo ev).messages.head? =
      some { role := "user", text := "Commented: " ++ ev.text } ∧
    strContains ("Commented: " ++ ev.text) ev.text = true ∧
    (commentConvo ev).messages.getLast? =
      some { role := "agent", text := followPrompt } ∧
    strContains followPrompt "I followed" = true := by
  refine ⟨?_, by simp [commentConvo], by simp [commentConvo],
    strContains_append "Commented: " ev.text, by simp [commentConvo], by decide⟩
  cases hu : (s.igusers.filter
      (fun u => u.igUserId == ev.igUserId && u.accountId == ev.accountId)).isEmpty <;>
    simp [on_comment, ha, hf, hg, hu]

/-- Witness for C4 at the fixture comment. -/
theorem comment_conversation_two_messages_w :
    (on_comment wStore wComment).2.conversations =
      wStore.conversations ++ [commentConvo wComment] ∧
    (commentConvo wComment).messages.length = 2 ∧
    (commentConvo wComment).messages.head? =
      some { role := "user", text := "Commented: " ++ wComment.text } ∧
    strContains ("Commented: " ++ wComment.text) wComment.text = true ∧
    (commentConvo wComment).messages.getLast? =
      some { role := "agent", text := followPrompt } ∧
    strContains followPrompt "I followed" = true :=
  comment_conversation_two_messages wStore wComment wAssignment wFlow
    (by decide) (by decide) (by decide)

/-! ## Claims about the webhook verification handshake -/

/-- The challenge handling of claim C3 read literally: absent or
unparseable challenges default to the integer 0, otherwise the parsed
integer is echoed. -/
def challengeEchoClaim (challenge : Option String) : Int :=
  match challenge with
  | none => 0
  | some c =>
    match pyIntOfString c with
    | some n => n
    | none => 0

/-- C3 counterexample: with `mode=subscribe`, a token present and the
unparseable challenge `"abc"`, the claim predicts the integer 0, but the
code raises an unhandled `ValueError` from `int("abc")`. -/
theorem verify_webhook_claim_cex :
    verify_webhook (some "subscribe") (some "t") (some "abc") ≠
      VerifyOutcome.ok (challengeEchoClaim (some "abc")) ∧
    verify_webhook (some "subscribe") (some "t") (some "abc") =
      VerifyOutcome.valueError := by
  constructor <;> decide

/-- The amended challenge echo: an absent or empty challenge defaults to
0, a parseable challenge is echoed as its integer, and a non-empty
unparseable challenge raises an unhandled `ValueError`. -/
def challengeEchoAmended (challenge : Option String) : VerifyOutcome :=
  match challenge with
  | none => VerifyOutcome.ok 0
  | some c =>
    if c == "" then VerifyOutcome.ok 0
    else
      match pyIntOfString c with
      | some n => VerifyOutcome.ok n
      | none => VerifyOutcome.valueError

/-- C3 amended: if `mode` equals `subscribe` and a non-empty token is
supplied, the handler echoes the challenge per `challengeEchoAmended`
(0 only for an absent or empty challenge; a non-empty unparseable
challenge is an unhandled `ValueError`, not a 0 default); in every other
case it fails with the 403 Forbidden classification. -/
theorem verify_webhook_amended (hub_mode hub_token hub_challenge : Option String) :
    (hub_mode = some "subscribe" → pyTruthy hub_token = true →
      verify_webhook hub_mode hub_token hub_challenge =
        challengeEchoAmended hub_challenge) ∧
    ((hub_mode = some "subscribe" ∧ pyTruthy hub_token = true → False) →
      verify_webhook hub_mode hub_token hub_challenge = VerifyOutcome.forbidden) := by
  constructor
  · intro hm ht
    subst hm
    cases hub_challenge with
    | none =>
      have hpn : pyTruthy (none : Option String) = false := rfl
      simp [verify_webhook, pyIntOr0, challengeEchoAmended, ht, hpn]
    | some c =>
      cases hc : (c == "") with
      | true =>
        have hc' : c = "" := by simpa using hc
        subst hc'
        have hpe : pyTruthy (some "") = false := rfl
        simp [verify_webhook, pyIntOr0, challengeEchoAmended, ht, hpe, hc]
      | false =>
        have hc' : c ≠ "" := by simpa using hc
        have hpc : pyTruthy (some c) = true := by
          cases hE : c.isEmpty with
          | false => simp [pyTruthy, hE]
          | true => exact absurd ((String.isEmpty_iff c).mp hE) hc'
        cases hp : pyIntOfString c <;>
          simp [verify_webhook, pyIntOr0, challengeEchoAmended, ht, hpc, hc, hp]
  · intro h
    have hcond : (hub_mode == some "subscribe" && pyTruthy hub_token) = false := by
      cases hm : (hub_mode == some "subscribe") with
      | false => simp
      | true =>
        have hmode : hub_mode = some "subscribe" := by simpa using hm
        cases ht : pyTruthy hub_token with
        | false => simp
        | true => exact absurd ⟨hmode, ht⟩ h
    simp [verify_webhook, hcond]

/-- Witness for the amended C3 at the spec's own test vector. -/
theorem verify_webhook_amended_w :
    verify_webhook (some "subscribe") (some "tok") (some "12345") =
      challengeEchoAmended (some "12345") :=
  (verify_webhook_amended (some "subscribe") (some "tok") (some "12345")).1
    rfl (by decide)

end IG
